import Mathlib

/-!
Verification of the cooper actor library (src/actor.rs, src/threaded_actor.rs).

The two backends share one structure: an unbounded multi-producer
single-consumer mailbox of type-erased envelopes and a single processor
loop that dequeues one envelope at a time and runs it to completion
against the privately owned state. We embed that structure shallowly:
an envelope is a function from the state to a new state together with
the list of values it writes to its private reply channel, the mailbox
is the FIFO list of pending envelopes, and the processor loop is a fold
over that list. The call and cast entry points are translated from the
bodies of Actor::call, Actor::cast, ThreadedActor::call and
ThreadedActor::cast, including their treatment of channel errors.
-/

namespace Cooper

/-- An envelope: the type-erased unit of work carried by the mailbox
(struct Message in actor.rs, QueueTask in threaded_actor.rs). Running it
transforms the state and yields the values written, in order, to the
reply channel captured inside the envelope (empty for a cast). -/
structure Message (S R : Type) where
  func : S → S × List R

/-- Executing one envelope for its state effect only: the loop body
(msg.func)(mut state) of Actor::run, f(mut val) of ThreadedActor::thr_func. -/
def apply1 {S R : Type} (s : S) (m : Message S R) : S :=
  (m.func s).1

/-- The processor loop (Actor::run, lines 83-87 of actor.rs, and
ThreadedActor::thr_func, lines 60-64 of threaded_actor.rs): receive and
execute each envelope to completion, in arrival order, until the mailbox
is closed and empty. -/
def run {S R : Type} (msgs : List (Message S R)) (s : S) : S :=
  msgs.foldl apply1 s

/-- The processor loop, also collecting the reply-channel contents of
each executed envelope, in execution order. -/
def runReplies {S R : Type} : List (Message S R) → S → S × List (List R)
  | [], s => (s, [])
  | m :: ms, s =>
    let p := m.func s
    let q := runReplies ms p.1
    (q.1, p.2 :: q.2)

/-- The envelope built by cast (actor.rs lines 97-103, threaded_actor.rs
line 73): the user function is run for its state effect; nothing is ever
written to a reply channel. -/
def castMsg {S R : Type} (f : S → S) : Message S R :=
  ⟨fun s => (f s, [])⟩

/-- A user operation passed to call. It receives the reply sender and
exclusive access to the state; it may mutate the state, send values
directly on the reply sender it was given, and return an optional
result (the FnOnce(Sender R, mut S) -> Option R shape of both call
signatures). We record the direct sends as a list, in order. -/
structure CallOp (S A : Type) where
  op : S → S × List A × Option A

/-- The wrapper call installs around the user operation (actor.rs lines
119-127, threaded_actor.rs lines 87-91): run the operation; if it
returned some res, send res on the reply channel afterwards. The
injection describes the type erasure of the reply value into the
common message type. -/
def callMsg {S A R : Type} (f : CallOp S A) (inj : A → R) : Message S R :=
  ⟨fun s =>
    let t := f.op s
    (t.1, (t.2.1 ++ t.2.2.toList).map inj)⟩

/-- What the caller of call ends up with. The fatal constructor models a
Rust panic reaching the caller (from expect or unwrap). -/
inductive CallResult (A : Type) where
  | ok : A → CallResult A
  | fatal : String → CallResult A

/-- The receive on the reply channel: the caller takes the first value
written, if any. After the envelope runs, every sender of the reply
channel has been dropped, so an empty channel is a closed channel. -/
def recvCaller {A : Type} (replies : List A) : Option A :=
  replies.head?

/-- Line 131 of actor.rs: rx.recv().await.expect("Actor is gone") —
a missing reply is a panic, not an error value. -/
def expectActorGone {A : Type} (r : Option A) : CallResult A :=
  match r with
  | some v => CallResult.ok v
  | none => CallResult.fatal "Actor is gone"

/-- Line 94 of threaded_actor.rs: rx.recv().unwrap() — a missing reply
is a panic. -/
def unwrapRecv {A : Type} (r : Option A) : CallResult A :=
  match r with
  | some v => CallResult.ok v
  | none => CallResult.fatal "called unwrap on a RecvError"

/-- Actor::call (actor.rs lines 112-132). If the processor is alive the
envelope is eventually executed (the caller holds a mailbox sender, so
the loop cannot exit first) and the caller receives the first value
written to the fresh reply channel. If the processor has terminated,
line 129 discards the send error, the unexecuted envelope (and with it
every reply sender) is dropped, and line 131 panics on the closed empty
reply channel. -/
def Actor.call {S A : Type} (consumerAlive : Bool) (s : S) (f : CallOp S A) :
    S × CallResult A :=
  if consumerAlive then
    let t := f.op s
    (t.1, expectActorGone (t.2.1 ++ t.2.2.toList).head?)
  else
    (s, expectActorGone (recvCaller ([] : List A)))

/-- ThreadedActor::call (threaded_actor.rs lines 80-95). When the actor
thread is gone, the mailbox send itself fails and the unwrap on line 92
panics before any receive happens. -/
def ThreadedActor.call {S A : Type} (consumerAlive : Bool) (s : S) (f : CallOp S A) :
    S × CallResult A :=
  if consumerAlive then
    let t := f.op s
    (t.1, unwrapRecv (t.2.1 ++ t.2.2.toList).head?)
  else
    (s, CallResult.fatal "called unwrap on a SendError")

/-- Failure of a send into the mailbox: on an unbounded channel this
happens exactly when the consumer has terminated and the channel is
closed. -/
inductive SendError where
  | closed

/-- Sending into the unbounded mailbox: appends to the tail, unless the
consumer is gone, in which case the message is returned inside the
error and dropped. -/
def trySend {M : Type} (consumerAlive : Bool) (q : List M) (m : M) :
    Except SendError (List M) :=
  if consumerAlive then Except.ok (q ++ [m]) else Except.error SendError.closed

/-- Actor::cast (actor.rs lines 92-107). Line 106 reads
let _ = self.tx.try_send(msg); — the result is discarded, so the caller
always gets back the unit value, whether or not the envelope was
enqueued. -/
def Actor.cast {S R : Type} (consumerAlive : Bool) (q : List (Message S R))
    (f : S → S) : List (Message S R) × Unit :=
  match trySend consumerAlive q (castMsg f) with
  | Except.ok q2 => (q2, ())
  | Except.error _ => (q, ())

/-- What the caller of ThreadedActor::cast observes: normal return, or a
panic out of the unwrap. -/
inductive CastResult where
  | ok : CastResult
  | fatal : String → CastResult

/-- ThreadedActor::cast (threaded_actor.rs lines 69-74):
self.tx.send(Box::new(f)).unwrap() — an enqueue failure panics in the
calling thread. -/
def ThreadedActor.cast {S R : Type} (consumerAlive : Bool)
    (q : List (Message S R)) (f : S → S) : List (Message S R) × CastResult :=
  match trySend consumerAlive q (castMsg f) with
  | Except.ok q2 => (q2, CastResult.ok)
  | Except.error _ => (q, CastResult.fatal "called unwrap on a SendError")

/-- Capacity of a channel as requested at creation. -/
inductive ChannelCapacity where
  | bounded : Nat → ChannelCapacity
  | unbounded : ChannelCapacity
deriving DecidableEq

/-- Line 118 of actor.rs: let (tx, rx) = channel::bounded(1); — the
reply channel of the cooperative backend. -/
def Actor.replyChannelCapacity : ChannelCapacity := ChannelCapacity.bounded 1

/-- Line 85 of threaded_actor.rs: let (tx, rx) = channel::unbounded(); —
the reply channel of the threaded backend. -/
def ThreadedActor.replyChannelCapacity : ChannelCapacity := ChannelCapacity.unbounded

/-- Line 70 of actor.rs: the mailbox is channel::unbounded(). -/
def Actor.mailboxCapacity : ChannelCapacity := ChannelCapacity.unbounded

/-- Line 48 of threaded_actor.rs: the mailbox is channel::unbounded(). -/
def ThreadedActor.mailboxCapacity : ChannelCapacity := ChannelCapacity.unbounded

/-- The flush operation (actor.rs line 142, threaded_actor.rs line 105):
it ignores the state entirely and returns some unit. -/
def flushOp (S : Type) : CallOp S Unit :=
  ⟨fun s => (s, [], some ())⟩

/-- The envelope a flush enqueues: the flush operation under the usual
call wrapper. -/
def flushMsg {S R : Type} (inj : Unit → R) : Message S R :=
  callMsg (flushOp S) inj

/-- A snapshot read: a call operation that returns the current state and
does not modify it (the shape of the read in the FIFO test scenario). -/
def readOp (T : Type) : CallOp T T :=
  ⟨fun s => (s, [], some s)⟩

/-- The operation of UniqueId::get_unique_id (examples/unique_id.rs
lines 30-39): increment the counter and return the new value. -/
def uniqueIdOp : CallOp Nat Nat :=
  ⟨fun s => (s + 1, [], some (s + 1))⟩

/-- Both mailbox channels (async-channel and crossbeam-channel) keep
delivering already-queued messages after every sender is dropped; recv
fails only once the queue is also empty. Hence, after the last handle is
dropped while q is still queued, the loop of Actor::run and of
ThreadedActor::thr_func executes every envelope of q, collects their
replies, and only then exits. -/
def runAfterHandlesDropped {S R : Type} (q : List (Message S R)) (s : S) :
    S × List (List R) :=
  runReplies q s

/-- The processor loop under operation failure. A user operation that
fails internally is a Rust panic during (msg.func)(mut state) on line 85
of actor.rs or f(mut val) on line 62 of threaded_actor.rs; neither loop
body has any handler around it, so the failure unwinds out of the loop
and the remaining envelopes are never executed. -/
def runFallible {S E : Type} : List (S → Except E S) → S → Except E S
  | [], s => Except.ok s
  | f :: fs, s =>
    match f s with
    | Except.ok s2 => runFallible fs s2
    | Except.error e => Except.error e

/-- A configuration of one actor: the private state, the mailbox
contents in FIFO order, the envelopes executed so far in execution
order, and the full arrival history in enqueue order. -/
structure Sys (S R : Type) where
  state : S
  queue : List (Message S R)
  executed : List (Message S R)
  arrived : List (Message S R)

/-- One transition of the actor system: either some producer handle
enqueues an envelope at the tail of the mailbox, or the single processor
loop dequeues the head envelope and runs it to completion. These are the
only two events; the state is touched solely by the execute step. -/
inductive Step {S R : Type} : Sys S R → Sys S R → Prop where
  | enq (σ : Sys S R) (m : Message S R) :
      Step σ ⟨σ.state, σ.queue ++ [m], σ.executed, σ.arrived ++ [m]⟩
  | exec (σ : Sys S R) (m : Message S R) (q : List (Message S R))
      (h : σ.queue = m :: q) :
      Step σ ⟨apply1 σ.state m, q, σ.executed ++ [m], σ.arrived⟩

/-- Finitely many transitions. -/
def Steps {S R : Type} : Sys S R → Sys S R → Prop :=
  Relation.ReflTransGen Step

/-- A freshly created actor: initial state, empty mailbox, no history
(Actor::new, ThreadedActor::new). -/
def initSys {S R : Type} (s : S) : Sys S R :=
  ⟨s, [], [], []⟩

/-- A concrete increment envelope used by witnesses. -/
def msgInc : Message Nat Nat := castMsg (fun n => n + 1)

/-- A call operation that neither sends on its reply sender nor returns
a value, used to exercise the missing-reply path. -/
def noReplyOp : CallOp Nat Nat :=
  ⟨fun s => (s + 1, [], none)⟩

theorem run_cons {S R : Type} (m : Message S R) (ms : List (Message S R)) (s : S) :
    run (m :: ms) s = run ms (apply1 s m) := rfl

theorem run_append {S R : Type} (xs ys : List (Message S R)) (s : S) :
    run (xs ++ ys) s = run ys (run xs s) := by
  simp [run, List.foldl_append]

theorem runReplies_fst {S R : Type} (ms : List (Message S R)) (s : S) :
    (runReplies ms s).1 = run ms s := by
  induction ms generalizing s with
  | nil => rfl
  | cons m ms ih => simp [runReplies, run_cons, ih, apply1]

theorem runReplies_append {S R : Type} (xs ys : List (Message S R)) (s : S) :
    runReplies (xs ++ ys) s
      = ((runReplies ys (run xs s)).1,
         (runReplies xs s).2 ++ (runReplies ys (run xs s)).2) := by
  induction xs generalizing s with
  | nil => simp [runReplies, run]
  | cons m ms ih => simp [runReplies, ih, run_cons, apply1]

theorem runReplies_middle {S R : Type} (pre post : List (Message S R))
    (m : Message S R) (s0 : S) :
    runReplies (pre ++ m :: post) s0
      = (run post (apply1 (run pre s0) m),
         (runReplies pre s0).2
           ++ (m.func (run pre s0)).2
             :: (runReplies post (apply1 (run pre s0) m)).2) := by
  rw [runReplies_append]
  simp [runReplies, run_cons, runReplies_fst, apply1]

theorem runReplies_casts {S R : Type} (fs : List (S → S)) (s : S) :
    runReplies (fs.map (castMsg (R := R))) s
      = (fs.foldl (fun a f => f a) s, fs.map (fun _ => ([] : List R))) := by
  induction fs generalizing s with
  | nil => rfl
  | cons f fs ih => simp [runReplies, castMsg, ih]

theorem step_preserves_history {S R : Type} {σ τ : Sys S R} (s0 : S)
    (h : Step σ τ) (ha : σ.arrived = σ.executed ++ σ.queue)
    (hs : σ.state = run σ.executed s0) :
    τ.arrived = τ.executed ++ τ.queue ∧ τ.state = run τ.executed s0 := by
  cases h with
  | enq m => exact ⟨by simp [ha], hs⟩
  | exec m q hq =>
    refine ⟨by simp [ha, hq], ?_⟩
    show apply1 σ.state m = run (σ.executed ++ [m]) s0
    rw [run_append, ← hs]
    rfl

theorem steps_history {S R : Type} (s0 : S) {σ : Sys S R}
    (h : Steps (initSys s0) σ) :
    σ.arrived = σ.executed ++ σ.queue ∧ σ.state = run σ.executed s0 := by
  induction h with
  | refl => exact ⟨rfl, rfl⟩
  | tail h1 h2 ih => exact step_preserves_history s0 h2 ih.1 ih.2

/-- C1: operations execute in strict enqueue order, FIFO across all
producers, with no reordering: in every reachable configuration the
arrival history is exactly the executed envelopes followed by the
still-queued ones, so the executed sequence is a prefix of the arrival
sequence and the state is the fold of the executed envelopes in that
order; and concretely, after any sequence of casts from one handle, a
subsequent call reading the state observes every cast effect applied in
exact enqueue order. -/
theorem c1_fifo_strict_enqueue_order {S R : Type} (s0 : S) (σ : Sys S R)
    (h : Steps (initSys s0) σ) (T : Type) (fs : List (T → T)) (t0 : T) :
    σ.arrived = σ.executed ++ σ.queue ∧
    σ.executed <+: σ.arrived ∧
    σ.state = run σ.executed s0 ∧
    runReplies (fs.map (castMsg (R := T)) ++ [callMsg (readOp T) (fun x => x)]) t0
      = (fs.foldl (fun a f => f a) t0,
         fs.map (fun _ => ([] : List T)) ++ [[fs.foldl (fun a f => f a) t0]]) := by
  obtain ⟨ha, hs⟩ := steps_history s0 h
  refine ⟨ha, ⟨σ.queue, ha.symm⟩, hs, ?_⟩
  have hcasts := runReplies_casts (R := T) fs t0
  have hr : run (fs.map (castMsg (R := T))) t0 = fs.foldl (fun a f => f a) t0 := by
    rw [← runReplies_fst, hcasts]
  rw [runReplies_append, hr, hcasts]
  rfl

/-- C1 witness: a concrete two-step trace on a counter actor (enqueue
one increment envelope, then execute it), together with the three-cast
list-append scenario read back as the list one, two, three. -/
theorem c1_witness :
    ([msgInc] : List (Message Nat Nat)) = [msgInc] ++ [] ∧
    ([msgInc] : List (Message Nat Nat)) <+: [msgInc] ∧
    (1 : Nat) = run [msgInc] 0 ∧
    runReplies (([fun l => l ++ [1], fun l => l ++ [2], fun l => l ++ [3]] :
          List (List Nat → List Nat)).map (castMsg (R := List Nat))
        ++ [callMsg (readOp (List Nat)) (fun x => x)]) []
      = ([1, 2, 3],
         ([fun l => l ++ [1], fun l => l ++ [2], fun l => l ++ [3]] :
            List (List Nat → List Nat)).map (fun _ => ([] : List (List Nat)))
           ++ [[[1, 2, 3]]]) := by
  have htrace : Steps (initSys (R := Nat) 0) ⟨1, [], [msgInc], [msgInc]⟩ :=
    Relation.ReflTransGen.tail
      (Relation.ReflTransGen.single (Step.enq (initSys 0) msgInc))
      (Step.exec ⟨0, [msgInc], [], [msgInc]⟩ msgInc [] rfl)
  exact c1_fifo_strict_enqueue_order 0 ⟨1, [], [msgInc], [msgInc]⟩ htrace
    (List Nat) [fun l => l ++ [1], fun l => l ++ [2], fun l => l ++ [3]] []

/-- C2: the claim says a call whose reply is never delivered because the
processor terminated returns a recoverable error and never causes a
fatal condition. The code does the opposite: Actor::call panics through
expect with the message Actor is gone (actor.rs line 131, right under a
TODO saying an error should be returned instead), and ThreadedActor::call
panics through unwrap on the failed mailbox send (threaded_actor.rs line
92). Evaluating both call paths on a terminated actor yields the fatal
outcome. -/
theorem c2_call_on_dead_actor_panics :
    Actor.call false 0 uniqueIdOp
      = (0, CallResult.fatal "Actor is gone") ∧
    ThreadedActor.call false 0 uniqueIdOp
      = (0, CallResult.fatal "called unwrap on a SendError") :=
  ⟨rfl, rfl⟩

/-- C3: the claim says a cast whose enqueue fails because the consumer
terminated surfaces an explicit error to the caller. In the code,
Actor::cast discards the try_send result (actor.rs line 106, under a
TODO asking whether the error should at least be logged), returning unit
with the envelope silently dropped, and ThreadedActor::cast panics via
unwrap (threaded_actor.rs line 73); neither returns an error value. -/
theorem c3_cast_failure_not_surfaced :
    Actor.cast (R := Nat) false [] (fun s : Nat => s + 1) = ([], ()) ∧
    (ThreadedActor.cast (R := Nat) false [] (fun s : Nat => s + 1)).2
      = CastResult.fatal "called unwrap on a SendError" :=
  ⟨rfl, rfl⟩

/-- C4: at most one operation executes at a time: every transition of
the actor system either enqueues an envelope, leaving the state and the
execution history untouched, or dequeues the single head envelope and
runs it to completion, the state being transformed by exactly that
envelope before anything else is dequeued. -/
theorem c4_one_operation_at_a_time {S R : Type} {σ τ : Sys S R}
    (h : Step σ τ) :
    (τ.state = σ.state ∧ τ.executed = σ.executed) ∨
    (∃ m, ∃ q, σ.queue = m :: q ∧ τ.state = apply1 σ.state m ∧
      τ.executed = σ.executed ++ [m] ∧ τ.queue = q) := by
  cases h with
  | enq m => exact Or.inl ⟨rfl, rfl⟩
  | exec m q hq => exact Or.inr ⟨m, q, hq, rfl, rfl, rfl⟩

/-- C4 witness: the enqueue step of one increment envelope on the fresh
actor with state zero. -/
theorem c4_witness :
    (((0 : Nat) = 0 ∧ ([] : List (Message Nat Nat)) = []) ∨
     (∃ m, ∃ q, ([] : List (Message Nat Nat)) = m :: q ∧
       (0 : Nat) = apply1 0 m ∧
       ([] : List (Message Nat Nat)) = [] ++ [m] ∧ [msgInc] = q)) :=
  c4_one_operation_at_a_time (Step.enq (initSys 0) msgInc)

/-- C5 counterexample: the claim says envelopes still queued when all
handles are dropped are discarded without being executed, their effects
never appearing in S. With one increment envelope queued at drop time,
the loop drains the closed mailbox and the final state is one, not the
pre-drop state zero: the effect does appear. -/
theorem c5_queued_envelope_executes_after_drop :
    (runAfterHandlesDropped [castMsg (R := Nat) (fun n : Nat => n + 1)] 0).1 = 1 ∧
    (runAfterHandlesDropped [castMsg (R := Nat) (fun n : Nat => n + 1)] 0).1 ≠ 0 :=
  ⟨rfl, by decide⟩

/-- C5 amended: after all handles are dropped, the envelopes still
queued are executed in order — the mailbox drains — before the processor
terminates, the final state being the fold of every queued envelope, and
a call envelope still queued at that moment is executed with its reply
delivered exactly as in normal operation. -/
theorem c5_amended_drop_drains_and_replies {S A R : Type}
    (pre post : List (Message S R)) (f : CallOp S A) (inj : A → R) (s0 : S) :
    (runAfterHandlesDropped (pre ++ callMsg f inj :: post) s0).1
      = run post (apply1 (run pre s0) (callMsg f inj)) ∧
    (runAfterHandlesDropped (pre ++ callMsg f inj :: post) s0).2
      = (runReplies pre s0).2
          ++ ((callMsg f inj).func (run pre s0)).2
            :: (runReplies post (apply1 (run pre s0) (callMsg f inj))).2 := by
  unfold runAfterHandlesDropped
  rw [runReplies_middle]
  exact ⟨rfl, rfl⟩

/-- C6: the claim says an operation failing internally is caught at the
processor boundary and the loop continues with subsequent operations
against uncorrupted state. The loop bodies have no handler, so the
failure propagates and terminates the loop: with a failing operation
followed by an increment on state zero, the run result is the propagated
failure and the increment never executes — a caught failure with a
surviving loop would end in ok one. -/
theorem c6_operation_failure_kills_loop :
    runFallible [fun _ : Nat => Except.error "operation failed",
      fun n : Nat => Except.ok (n + 1)] 0
      = Except.error "operation failed" ∧
    runFallible [fun _ : Nat => Except.error "operation failed",
      fun n : Nat => Except.ok (n + 1)] 0
      ≠ Except.ok 1 :=
  ⟨rfl, by simp [runFallible]⟩

/-- C7 counterexample: the claim says the per-call reply channel has
capacity exactly one; ThreadedActor::call creates its reply channel
unbounded (threaded_actor.rs line 85). -/
theorem c7_threaded_reply_channel_not_capacity_one :
    ThreadedActor.replyChannelCapacity ≠ ChannelCapacity.bounded 1 := by
  decide

/-- C7 amended: the reply channel is created fresh per call invocation,
with capacity one in the cooperative backend but unbounded in the
threaded backend; the call wrapper writes at most one value beyond the
direct sends of the operation, hence at most once in total when the
operation does not send directly; the caller performs one receive and so
obtains at most one value; and the mailbox on the cast path is unbounded
in both backends, so producers never block on enqueue. -/
theorem c7_amended_channel_discipline {S A R : Type} (f : CallOp S A)
    (inj : A → R) (s : S) :
    Actor.replyChannelCapacity = ChannelCapacity.bounded 1 ∧
    ThreadedActor.replyChannelCapacity = ChannelCapacity.unbounded ∧
    Actor.mailboxCapacity = ChannelCapacity.unbounded ∧
    ThreadedActor.mailboxCapacity = ChannelCapacity.unbounded ∧
    ((callMsg f inj).func s).2.length ≤ (f.op s).2.1.length + 1 ∧
    ∀ replies : List A, (recvCaller replies).toList.length ≤ 1 := by
  refine ⟨rfl, rfl, rfl, rfl, ?_, ?_⟩
  · have h1 : (f.op s).2.2.toList.length ≤ 1 := by
      cases (f.op s).2.2 <;> simp
    simp only [callMsg, List.length_map, List.length_append]
    omega
  · intro replies
    cases hr : recvCaller replies <;> simp

/-- C8: every call returns exactly the value produced by that specific
invocation: if the operation on the current state produces result v with
no direct sends, the caller of either backend receives ok v; and three
sequential calls of the unique-id increment operation on a fresh
zero-initialized counter return one, then two, then three. -/
theorem c8_call_returns_this_invocation_value {S A : Type} (s s2 : S)
    (f : CallOp S A) (v : A) (h : f.op s = (s2, [], some v)) :
    Actor.call true s f = (s2, CallResult.ok v) ∧
    ThreadedActor.call true s f = (s2, CallResult.ok v) ∧
    (Actor.call true 0 uniqueIdOp).2 = CallResult.ok 1 ∧
    (Actor.call true (Actor.call true 0 uniqueIdOp).1 uniqueIdOp).2
      = CallResult.ok 2 ∧
    (Actor.call true
        (Actor.call true (Actor.call true 0 uniqueIdOp).1 uniqueIdOp).1
        uniqueIdOp).2
      = CallResult.ok 3 := by
  refine ⟨?_, ?_, rfl, rfl, rfl⟩
  · simp [Actor.call, h, expectActorGone]
  · simp [ThreadedActor.call, h, unwrapRecv]

/-- C8 witness: the hypothesis and the conclusion at the unique-id
operation on the fresh counter state zero. -/
theorem c8_witness :
    uniqueIdOp.op 0 = (1, [], some 1) ∧
    (Actor.call true 0 uniqueIdOp = (1, CallResult.ok 1) ∧
     ThreadedActor.call true 0 uniqueIdOp = (1, CallResult.ok 1) ∧
     (Actor.call true 0 uniqueIdOp).2 = CallResult.ok 1 ∧
     (Actor.call true (Actor.call true 0 uniqueIdOp).1 uniqueIdOp).2
       = CallResult.ok 2 ∧
     (Actor.call true
         (Actor.call true (Actor.call true 0 uniqueIdOp).1 uniqueIdOp).1
         uniqueIdOp).2
       = CallResult.ok 3) :=
  ⟨rfl, c8_call_returns_this_invocation_value 0 1 uniqueIdOp 1 rfl⟩

/-- C9: flush is a call whose operation performs no state access — the
state is unchanged by a flush envelope — its reply is produced exactly
after every envelope enqueued before it has executed, the state at that
point being the fold of those envelopes; and in the scenario cast op1,
flush, cast op2, call read, the read observes the state with op1 applied
(before op2), in order. -/
theorem c9_flush_barrier {S R T : Type} (inj : Unit → R) (s : S)
    (pre post : List (Message S R)) (s0 : S)
    (f1 f2 : T → T) (t0 : T) :
    apply1 s (flushMsg (R := R) inj) = s ∧
    runReplies (pre ++ flushMsg inj :: post) s0
      = (run post (run pre s0),
         (runReplies pre s0).2 ++ [inj ()] :: (runReplies post (run pre s0)).2) ∧
    runReplies [castMsg f1, flushMsg (fun _ => (none : Option T)), castMsg f2,
        callMsg (readOp T) some] t0
      = (f2 (f1 t0), [[], [none], [], [some (f2 (f1 t0))]]) := by
  refine ⟨rfl, ?_, rfl⟩
  rw [runReplies_middle]
  have hstate : apply1 (run pre s0) (flushMsg (R := R) inj) = run pre s0 := rfl
  have hfunc : ((flushMsg (R := R) inj).func (run pre s0)).2 = [inj ()] := rfl
  rw [hstate, hfunc]

/-- C10: a call operation that neither sends on the reply sender it was
given nor returns a value leaves the reply channel empty; every reply
sender is dropped when the envelope finishes executing, so the caller
observes the closed channel as soon as the operation completes — call
does not block forever but takes the actor-gone failure path of the
code. -/
theorem c10_no_reply_hits_actor_gone_path {S A : Type} (s s2 : S)
    (f : CallOp S A) (h : f.op s = (s2, [], none)) :
    ((callMsg f (fun a => a)).func s).2 = [] ∧
    Actor.call true s f = (s2, CallResult.fatal "Actor is gone") ∧
    ThreadedActor.call true s f
      = (s2, CallResult.fatal "called unwrap on a RecvError") := by
  refine ⟨?_, ?_, ?_⟩ <;>
    simp [callMsg, Actor.call, ThreadedActor.call, h, expectActorGone, unwrapRecv]

/-- C10 witness: the hypothesis and the conclusion at the no-reply
operation on state zero. -/
theorem c10_witness :
    noReplyOp.op 0 = (1, [], none) ∧
    (((callMsg noReplyOp (fun a => a)).func 0).2 = [] ∧
     Actor.call true 0 noReplyOp = (1, CallResult.fatal "Actor is gone") ∧
     ThreadedActor.call true 0 noReplyOp
       = (1, CallResult.fatal "called unwrap on a RecvError")) :=
  ⟨rfl, c10_no_reply_hits_actor_gone_path 0 1 noReplyOp rfl⟩

end Cooper
